import Mathlib

/-!
Verification of the `User` entity of the discordgo fragment (`src/user.go`):
the record type, the avatar URL formatter, the mention membership test, and
the DM-channel creation and delegation methods. The external `Session` and
`Channel` collaborators are not part of the fragment; they are modelled from
the spec's stated contract as a record of capabilities, so every theorem
quantifies over all possible sessions. Go's pointer-receiver mutation is
embedded by explicit state passing (methods return the updated `User`), and
a nil-pointer dereference is embedded totally as the `none` branch of an
`Option` result.
-/

/-- Go `error` values, modelled as their message string. -/
abbrev GoError := String

/-- A Discord channel. Only its `ID` is read by the code under verification
(`GetHistory` reads `u.DMChannel.ID`). -/
structure Channel where
  ID : String

/-- A User stores all data for an individual Discord user (`src/user.go`).
A nil `DMChannel` pointer is `none`. -/
structure User where
  ID : String
  Email : String
  Username : String
  Avatar : String
  Locale : String
  Discriminator : String
  Token : String
  Verified : Bool
  MFAEnabled : Bool
  DMChannel : Option Channel
  Bot : Bool

/-- A message, restricted to the two fields `IsMentionedIn` reads. -/
structure Message where
  MentionEveryone : Bool
  Mentions : List User

/-- An embed attached to a message; opaque to this fragment. -/
structure MessageEmbed where
  title : String

/-- A file attached to a message; opaque to this fragment. -/
structure File where
  Name : String

/-- A MessageSend payload; opaque to this fragment. -/
structure MessageSend where
  Content : String

/-- Modelled from the spec: the external `Session` collaborator (its code is
not under `src/`). The spec's visible contract for it is
`CreateDMChannel(userID) -> Channel | error` (named `UserChannelCreate` at
the call site in `user.go`),
`FetchMessages(channelID, limit, beforeID, afterID, aroundID) ->
[]Message | error` (named `ChannelMessages` at the call site), and the two
channel send operations that `Channel.SendMessage` /
`Channel.SendMessageComplex` route through the session. -/
structure Session where
  UserChannelCreate : String → Except GoError Channel
  ChannelMessages : String → Int → String → String → String →
    Except GoError (List Message)
  SendToChannel : Channel → String → Option MessageEmbed → List File →
    Except GoError Message
  SendToChannelComplex : Channel → MessageSend → Except GoError Message

/-- Modelled from the spec: the channel capability `SendMessage` that the
user entity delegates to (`channel.go` is not under `src/`). -/
def Channel.SendMessage (c : Channel) (s : Session) (content : String)
    (embed : Option MessageEmbed) (files : List File) :
    Except GoError Message :=
  s.SendToChannel c content embed files

/-- Modelled from the spec: the channel capability `SendMessageComplex` that
the user entity delegates to (`channel.go` is not under `src/`). -/
def Channel.SendMessageComplex (c : Channel) (s : Session)
    (data : MessageSend) : Except GoError Message :=
  s.SendToChannelComplex c data

/-- Modelled from the spec: the default-avatar endpoint, built from the
discriminator (`endpoints.go` is not under `src/`). -/
def EndpointDefaultUserAvatar (discriminator : String) : String :=
  "https://cdn.discordapp.com/embed/avatars/" ++ discriminator ++ ".png"

/-- Modelled from the spec: the animated-avatar endpoint, built from the
user ID and avatar hash (`endpoints.go` is not under `src/`). -/
def EndpointUserAvatarAnimated (uID aID : String) : String :=
  "https://cdn.discordapp.com/avatars/" ++ uID ++ "/" ++ aID ++ ".gif"

/-- Modelled from the spec: the plain-avatar endpoint, built from the user
ID and avatar hash (`endpoints.go` is not under `src/`). -/
def EndpointUserAvatar (uID aID : String) : String :=
  "https://cdn.discordapp.com/avatars/" ++ uID ++ "/" ++ aID ++ ".png"

/-- AvatarURL returns a URL to the user's avatar; if `size` is the empty
string, no size parameter is added to the URL (`src/user.go`, lines 58-72). -/
def User.AvatarURL (u : User) (size : String) : String :=
  let URL : String :=
    if u.Avatar == "" then
      EndpointDefaultUserAvatar u.Discriminator
    else if u.Avatar.startsWith "a_" then
      EndpointUserAvatarAnimated u.ID u.Avatar
    else
      EndpointUserAvatar u.ID u.Avatar
  if size != "" then URL ++ "?size=" ++ size else URL

/-- IsAvatarAnimated indicates if the user has an animated avatar
(`src/user.go`, lines 75-77). -/
def User.IsAvatarAnimated (u : User) : Bool :=
  u.Avatar.startsWith "a_"

/-- IsMentionedIn checks if the user is mentioned in the given message
(`src/user.go`, lines 81-93); the Go range loop returning on the first ID
match is `List.any`. -/
def User.IsMentionedIn (u : User) (message : Message) : Bool :=
  if message.MentionEveryone then
    true
  else
    message.Mentions.any (fun user => user.ID == u.ID)

/-- CreateDM creates a DM channel between the client and the user if it is
nil, populating `DMChannel` with it (`src/user.go`, lines 98-108).
State-passing embedding of the pointer-receiver method: returns the updated
user and the optional error. -/
def User.CreateDM (u : User) (s : Session) : User × Option GoError :=
  match u.DMChannel with
  | some _ => (u, none)
  | none =>
    match s.UserChannelCreate u.ID with
    | Except.ok channel => ({ u with DMChannel := some channel }, none)
    | Except.error e => (u, some e)

/-- SendMessage sends a message to the user (`src/user.go`, lines 114-123):
if `DMChannel` is nil it first calls `CreateDM`, returning early on error,
then delegates to the channel's `SendMessage`. The outer `none` is the
nil-pointer dereference of `u.DMChannel` (unreachable here after a
successful `CreateDM`). -/
def User.SendMessage (u : User) (s : Session) (content : String)
    (embed : Option MessageEmbed) (files : List File) :
    Option (User × Except GoError Message) :=
  match u.DMChannel with
  | some c => some (u, Channel.SendMessage c s content embed files)
  | none =>
    match u.CreateDM s with
    | (u', some e) => some (u', Except.error e)
    | (u', none) =>
      match u'.DMChannel with
      | none => none
      | some c => some (u', Channel.SendMessage c s content embed files)

/-- SendMessageComplex sends a message to the user (`src/user.go`, lines
127-136); same lazy-creation shape as `SendMessage`, delegating to the
channel's `SendMessageComplex`. -/
def User.SendMessageComplex (u : User) (s : Session) (data : MessageSend) :
    Option (User × Except GoError Message) :=
  match u.DMChannel with
  | some c => some (u, Channel.SendMessageComplex c s data)
  | none =>
    match u.CreateDM s with
    | (u', some e) => some (u', Except.error e)
    | (u', none) =>
      match u'.DMChannel with
      | none => none
      | some c => some (u', Channel.SendMessageComplex c s data)

/-- GetHistory fetches up to `limit` messages from the user (`src/user.go`,
lines 143-145). It reads `u.DMChannel.ID` with no nil check and no lazy
creation, so the `none` result is the nil-pointer dereference reached when
`DMChannel` is `none`. -/
def User.GetHistory (u : User) (s : Session) (limit : Int)
    (beforeID afterID aroundID : String) :
    Option (Except GoError (List Message)) :=
  match u.DMChannel with
  | none => none
  | some c => some (s.ChannelMessages c.ID limit beforeID afterID aroundID)

/-! Concrete fixtures used to instantiate theorems with hypotheses and to
exhibit counterexamples. -/

/-- A concrete user with no DM channel. -/
def uNil : User :=
  { ID := "u1", Email := "", Username := "alice", Avatar := "",
    Locale := "", Discriminator := "0001", Token := "", Verified := false,
    MFAEnabled := false, DMChannel := none, Bot := false }

/-- A concrete channel. -/
def chan1 : Channel := { ID := "c1" }

/-- A concrete user whose DM channel is already established. -/
def uHave : User := { uNil with DMChannel := some chan1 }

/-- A concrete message value returned by the fixture session. -/
def msgOK : Message := { MentionEveryone := false, Mentions := [] }

/-- A concrete session whose channel creation succeeds with `chan1` and
whose other operations succeed. -/
def sOK : Session :=
  { UserChannelCreate := fun _ => Except.ok chan1,
    ChannelMessages := fun _ _ _ _ _ => Except.ok [],
    SendToChannel := fun _ _ _ _ => Except.ok msgOK,
    SendToChannelComplex := fun _ _ => Except.ok msgOK }

/-- A concrete session whose channel creation fails with error `"boom"`. -/
def sErr : Session :=
  { sOK with UserChannelCreate := fun _ => Except.error "boom" }

/-- A concrete message with `MentionEveryone` set and an empty mention
list. -/
def mEveryone : Message := { MentionEveryone := true, Mentions := [] }

/-- A concrete message mentioning `uNil` with `MentionEveryone` unset. -/
def mAlice : Message := { MentionEveryone := false, Mentions := [uNil] }

/-- Appending the empty string on the right is the identity on strings. -/
theorem string_append_empty_right (s : String) : s ++ "" = s := by
  cases s with
  | mk d => show String.mk (d ++ []) = String.mk d
            rw [List.append_nil]

/-- Claim C2 (confirmed): `GetHistory` reads `u.DMChannel.ID` with no nil
check and no lazy creation, so in this total embedding the nil-dereference
branch (`none`) is reached exactly when `DMChannel` is `none`; the call is
safe precisely under the precondition that `DMChannel` is non-nil. -/
theorem c2_getHistory_nil_deref (u : User) (s : Session) (limit : Int)
    (b a ar : String) :
    u.GetHistory s limit b a ar = none ↔ u.DMChannel = none := by
  cases h : u.DMChannel <;> simp [User.GetHistory, h]

/-- Claim C9 (confirmed): when `MentionEveryone` is true, `IsMentionedIn`
returns true for every user, regardless of the contents of the mention
list. -/
theorem c9_mentionEveryone_true (u : User) (m : Message)
    (h : m.MentionEveryone = true) :
    u.IsMentionedIn m = true := by
  simp [User.IsMentionedIn, h]

/-- Witness for C9: the concrete message `mEveryone` has `MentionEveryone`
set and `uNil` counts as mentioned in it. -/
theorem c9_mentionEveryone_true_witness :
    mEveryone.MentionEveryone = true ∧ uNil.IsMentionedIn mEveryone = true :=
  ⟨rfl, c9_mentionEveryone_true uNil mEveryone rfl⟩

/-- Claim C3, counterexample: with `MentionEveryone = true` and an empty
mention list, `IsMentionedIn` returns true although no element of
`Mentions` has the user's ID, so `IsMentionedIn` is not a pure membership
test over the mention list. -/
theorem c3_not_pure_membership :
    uNil.IsMentionedIn mEveryone = true ∧
    ¬ ∃ v ∈ mEveryone.Mentions, v.ID = uNil.ID := by
  exact ⟨rfl, by simp [mEveryone]⟩

/-- Claim C3 (amended): when `MentionEveryone` is false, `IsMentionedIn` is
a membership test over the message's mention list: it returns true exactly
when some element of `Mentions` has an ID equal to the user's ID. -/
theorem c3_membership_amended (u : User) (m : Message)
    (h : m.MentionEveryone = false) :
    u.IsMentionedIn m = true ↔ ∃ v ∈ m.Mentions, v.ID = u.ID := by
  simp [User.IsMentionedIn, h, List.any_eq_true]

/-- Witness for the amended C3: on a concrete message with
`MentionEveryone` unset whose mention list holds `uNil`, the equivalence
holds. -/
theorem c3_membership_amended_witness :
    mAlice.MentionEveryone = false ∧
    (uNil.IsMentionedIn mAlice = true ↔
      ∃ v ∈ mAlice.Mentions, v.ID = uNil.ID) :=
  ⟨rfl, c3_membership_amended uNil mAlice rfl⟩

/-- Claim C4 (confirmed): `AvatarURL` is the three-way conditional — the
default-avatar endpoint from the discriminator when the avatar hash is
empty, the animated-avatar endpoint from the ID and hash when the hash is
animated (starts with "a_", i.e. `IsAvatarAnimated`), the plain-avatar
endpoint otherwise — and the `?size=` suffix is appended exactly when
`size` is non-empty. -/
theorem c4_avatarURL_spec (u : User) (size : String) :
    u.AvatarURL size =
      (if u.Avatar = "" then EndpointDefaultUserAvatar u.Discriminator
       else if u.IsAvatarAnimated = true then
         EndpointUserAvatarAnimated u.ID u.Avatar
       else EndpointUserAvatar u.ID u.Avatar) ++
      (if size = "" then "" else "?size=" ++ size) := by
  by_cases h1 : u.Avatar = "" <;> by_cases h2 : size = "" <;>
    simp [User.AvatarURL, User.IsAvatarAnimated, h1, h2,
      string_append_empty_right, String.append_assoc]

/-- Claim C5 (confirmed): on a user with no DM channel, `CreateDM` invokes
the session's channel creation with exactly `u.ID`; on success it stores
the returned channel in `DMChannel` and returns no error, on failure it
returns that error. -/
theorem c5_createDM_nil (u : User) (s : Session) (h : u.DMChannel = none) :
    u.CreateDM s =
      match s.UserChannelCreate u.ID with
      | Except.ok c => ({ u with DMChannel := some c }, none)
      | Except.error e => (u, some e) := by
  simp only [User.CreateDM, h]

/-- Witness for C5: instantiated at the concrete channel-less user `uNil`
and the succeeding session `sOK`. -/
theorem c5_createDM_nil_witness :
    uNil.DMChannel = none ∧
    uNil.CreateDM sOK =
      match sOK.UserChannelCreate uNil.ID with
      | Except.ok c => ({ uNil with DMChannel := some c }, none)
      | Except.error e => (uNil, some e) :=
  ⟨rfl, c5_createDM_nil uNil sOK rfl⟩

/-- Claim C6 (confirmed): `CreateDM` on a user whose DM channel already
exists returns no error and the user unchanged, its result does not depend
on the session (no session operation is observable), and a repeated call
returns the same result, so it is idempotent. -/
theorem c6_createDM_noop (u : User) (c : Channel) (s s2 : Session)
    (h : u.DMChannel = some c) :
    u.CreateDM s = (u, none) ∧ u.CreateDM s2 = u.CreateDM s ∧
    ((u.CreateDM s).1).CreateDM s = u.CreateDM s := by
  simp [User.CreateDM, h]

/-- Witness for C6: instantiated at the concrete user `uHave` (channel
present) with the two different sessions `sOK` and `sErr`. -/
theorem c6_createDM_noop_witness :
    uHave.DMChannel = some chan1 ∧
    (uHave.CreateDM sOK = (uHave, none) ∧
     uHave.CreateDM sErr = uHave.CreateDM sOK ∧
     ((uHave.CreateDM sOK).1).CreateDM sOK = uHave.CreateDM sOK) :=
  ⟨rfl, c6_createDM_noop uHave chan1 sOK sErr rfl⟩

/-- Claim C7 (confirmed): once the DM channel is established — present
initially, or produced by a successful lazy creation — `SendMessage` and
`SendMessageComplex` are pure delegation to the channel's `SendMessage` /
`SendMessageComplex` with all arguments passed unchanged. -/
theorem c7_send_delegates (u : User) (s : Session) (c : Channel)
    (content : String) (embed : Option MessageEmbed) (files : List File)
    (data : MessageSend)
    (h : u.DMChannel = some c ∨
         (u.DMChannel = none ∧ s.UserChannelCreate u.ID = Except.ok c)) :
    u.SendMessage s content embed files =
      some ({ u with DMChannel := some c },
            Channel.SendMessage c s content embed files) ∧
    u.SendMessageComplex s data =
      some ({ u with DMChannel := some c },
            Channel.SendMessageComplex c s data) := by
  rcases h with h | ⟨h, hc⟩
  · have hu : { u with DMChannel := some c } = u := by
      cases u with
      | mk _ _ _ _ _ _ _ _ _ d _ => cases h; rfl
    rw [hu]
    simp [User.SendMessage, User.SendMessageComplex, h]
  · simp [User.SendMessage, User.SendMessageComplex, User.CreateDM, h, hc]

/-- Witness for C7: instantiated at the concrete user `uHave`, whose DM
channel is already `chan1`, with the session `sOK`. -/
theorem c7_send_delegates_witness :
    (uHave.DMChannel = some chan1 ∨
     (uHave.DMChannel = none ∧
      sOK.UserChannelCreate uHave.ID = Except.ok chan1)) ∧
    (uHave.SendMessage sOK "hi" none [] =
       some ({ uHave with DMChannel := some chan1 },
             Channel.SendMessage chan1 sOK "hi" none []) ∧
     uHave.SendMessageComplex sOK { Content := "hi" } =
       some ({ uHave with DMChannel := some chan1 },
             Channel.SendMessageComplex chan1 sOK { Content := "hi" })) :=
  ⟨Or.inl rfl,
   c7_send_delegates uHave sOK chan1 "hi" none [] { Content := "hi" }
     (Or.inl rfl)⟩

/-- Claim C8 (confirmed): with a non-nil DM channel, `GetHistory` returns
exactly the session's message fetch (`ChannelMessages`, the spec's
`FetchMessages`) applied to the DM channel's ID and the parameters passed
through unchanged. -/
theorem c8_getHistory_delegates (u : User) (s : Session) (c : Channel)
    (limit : Int) (b a ar : String) (h : u.DMChannel = some c) :
    u.GetHistory s limit b a ar =
      some (s.ChannelMessages c.ID limit b a ar) := by
  simp [User.GetHistory, h]

/-- Witness for C8: instantiated at the concrete user `uHave` with DM
channel `chan1` and the session `sOK`. -/
theorem c8_getHistory_delegates_witness :
    uHave.DMChannel = some chan1 ∧
    uHave.GetHistory sOK 5 "b" "a" "ar" =
      some (sOK.ChannelMessages chan1.ID 5 "b" "a" "ar") :=
  ⟨rfl, c8_getHistory_delegates uHave sOK chan1 5 "b" "a" "ar" rfl⟩

/-- Claim C10 (confirmed): when the DM channel is absent and the session's
channel creation fails, `CreateDM` returns the user unchanged (`DMChannel`
still `none`) together with that error, and both send methods return that
same error with no message; since the result is fixed for every session
with that creation outcome, no send is attempted. -/
theorem c10_create_failure (u : User) (s : Session) (e : GoError)
    (content : String) (embed : Option MessageEmbed) (files : List File)
    (data : MessageSend) (h : u.DMChannel = none)
    (hf : s.UserChannelCreate u.ID = Except.error e) :
    u.CreateDM s = (u, some e) ∧
    u.SendMessage s content embed files = some (u, Except.error e) ∧
    u.SendMessageComplex s data = some (u, Except.error e) := by
  simp [User.CreateDM, User.SendMessage, User.SendMessageComplex, h, hf]

/-- Witness for C10: instantiated at the concrete channel-less user `uNil`
and the failing session `sErr`. -/
theorem c10_create_failure_witness :
    uNil.DMChannel = none ∧
    sErr.UserChannelCreate uNil.ID = Except.error "boom" ∧
    (uNil.CreateDM sErr = (uNil, some "boom") ∧
     uNil.SendMessage sErr "hi" none [] = some (uNil, Except.error "boom") ∧
     uNil.SendMessageComplex sErr { Content := "hi" } =
       some (uNil, Except.error "boom")) :=
  ⟨rfl, rfl,
   c10_create_failure uNil sErr "boom" "hi" none [] { Content := "hi" }
     rfl rfl⟩

/-- Claim C1, counterexample: `GetHistory` does not lazily create the DM
channel. On the concrete user `uNil` with `DMChannel = none` and the
session `sOK` whose channel creation succeeds, `GetHistory` reaches the nil
dereference (`none`) instead of establishing the channel and performing the
delegated fetch, which would have produced the `some` result shown. -/
theorem c1_getHistory_not_lazy :
    uNil.DMChannel = none ∧
    sOK.UserChannelCreate uNil.ID = Except.ok chan1 ∧
    uNil.GetHistory sOK 1 "" "" "" = none ∧
    (some (sOK.ChannelMessages chan1.ID 1 "" "" "") ≠
      (none : Option (Except GoError (List Message)))) :=
  ⟨rfl, rfl, rfl, by simp⟩

/-- Claim C1 (amended): only `SendMessage` and `SendMessageComplex` lazily
create and cache the DM channel before delegating: for a user with
`DMChannel = none` whose creation succeeds with channel `c`, both store `c`
in `DMChannel` and delegate to it, while `GetHistory` performs no lazy
creation and reaches the nil dereference. -/
theorem c1_lazy_create_amended (u : User) (s : Session) (c : Channel)
    (content : String) (embed : Option MessageEmbed) (files : List File)
    (data : MessageSend) (limit : Int) (b a ar : String)
    (h : u.DMChannel = none) (hc : s.UserChannelCreate u.ID = Except.ok c) :
    u.SendMessage s content embed files =
      some ({ u with DMChannel := some c },
            Channel.SendMessage c s content embed files) ∧
    u.SendMessageComplex s data =
      some ({ u with DMChannel := some c },
            Channel.SendMessageComplex c s data) ∧
    u.GetHistory s limit b a ar = none := by
  simp [User.SendMessage, User.SendMessageComplex, User.GetHistory,
    User.CreateDM, h, hc]

/-- Witness for the amended C1: instantiated at the concrete channel-less
user `uNil` and the succeeding session `sOK`. -/
theorem c1_lazy_create_amended_witness :
    uNil.DMChannel = none ∧
    sOK.UserChannelCreate uNil.ID = Except.ok chan1 ∧
    (uNil.SendMessage sOK "hi" none [] =
       some ({ uNil with DMChannel := some chan1 },
             Channel.SendMessage chan1 sOK "hi" none []) ∧
     uNil.SendMessageComplex sOK { Content := "hi" } =
       some ({ uNil with DMChannel := some chan1 },
             Channel.SendMessageComplex chan1 sOK { Content := "hi" }) ∧
     uNil.GetHistory sOK 1 "" "" "" = none) :=
  ⟨rfl, rfl,
   c1_lazy_create_amended uNil sOK chan1 "hi" none [] { Content := "hi" }
     1 "" "" "" rfl rfl⟩
